import Mathlib

/-!
Verification of the Chaikin Oscillator indicator
(`src/indicators/chaikin_oscillator.rs`).

The core under verification is the `ChaikinOscillator` configuration type
(validation, parameter mutation, output shape, default values,
materialization into an instance) and the `ChaikinOscillatorInstance`
per-tick update. The collaborators (the accumulation/distribution
accumulator `ADI`, the moving-average constructor capability, the `Cross`
detector, the `Error` and `PeriodType` core types and the
`IndicatorResult` container) live outside the provided source tree; they
are modelled from the spec as abstract capabilities: the indicator code is
generic over them, so theorems quantify over arbitrary collaborator
implementations, and concrete example implementations are supplied for
witnesses.
-/

/-- Modelled from the spec: `PeriodType` is the integer type of smoothing
periods and window sizes; the source's period type is missing from the
sources, modelled here as `Nat`. -/
abbrev PeriodType := Nat

/-- Modelled from the spec: the maximum representable period value,
"reserved as a sentinel/overflow guard"; the reference implementation
uses an 8-bit period type, so the maximum is 255. -/
def PeriodType.MAX : PeriodType := 255

/-- Modelled from the spec: the error kinds surfaced by this core (§7):
`WrongConfig` for an invalid configuration and `ParameterParse` carrying
the parameter name and the raw value; `WrongMethodParameters` stands for
an error originating in a collaborator constructor (§8: errors from
collaborators propagate unchanged). -/
inductive Error where
  | WrongConfig : Error
  | WrongMethodParameters : Error
  | ParameterParse : String → String → Error
deriving DecidableEq, Repr

/-- Modelled from the spec: the default smoothing-descriptor family used
for witnesses — a tagged union of smoothing families, each carrying a
period, with `EMA` the default family. -/
inductive MA where
  | EMA : PeriodType → MA
  | SMA : PeriodType → MA
  | WMA : PeriodType → MA
deriving DecidableEq, Repr

/-- Modelled from the spec: the descriptor's period accessor
(`period() -> integer`). -/
def MA.ma_period : MA → PeriodType
  | .EMA p => p
  | .SMA p => p
  | .WMA p => p

/-- Modelled from the spec: `is_similar_to` is the "same smoothing family"
check — a capability check, not identity, so periods may differ. -/
def MA.is_similar_to : MA → MA → Bool
  | .EMA _, .EMA _ => true
  | .SMA _, .SMA _ => true
  | .WMA _, .WMA _ => true
  | _, _ => false

/-- Modelled from the spec: the fixed-shape result of one update: a list
of numeric values and a list of signals. -/
structure IndicatorResult (V S : Type) where
  values : List V
  signals : List S
deriving DecidableEq, Repr

/-- Modelled from the spec: the result constructor taking the value slice
and the signal slice. -/
def IndicatorResult.new {V S : Type} (values : List V) (signals : List S) :
    IndicatorResult V S :=
  ⟨values, signals⟩

/-- The Chaikin Oscillator configuration: two smoothing descriptors and an
accumulation window size. The source is generic over the moving-average
constructor type `M`; so is this embedding. -/
structure ChaikinOscillator (M : Type) where
  ma1 : M
  ma2 : M
  window : PeriodType
deriving DecidableEq, Repr

/-- `ChaikinOscillator::validate`: the two descriptors are similar, the
period of `ma1` is positive and strictly below the period of `ma2`, which
is strictly below `PeriodType::MAX`. The descriptor capability
(`ma_period`, `is_similar_to`) is passed explicitly, mirroring the
`MovingAverageConstructor` trait bound. -/
def ChaikinOscillator.validate {M : Type}
    (ma_period : M → PeriodType) (is_similar_to : M → M → Bool)
    (self : ChaikinOscillator M) : Bool :=
  is_similar_to self.ma1 self.ma2
    && decide (ma_period self.ma1 > 0)
    && decide (ma_period self.ma1 < ma_period self.ma2)
    && decide (ma_period self.ma2 < PeriodType.MAX)

/-- The live instance: the stored configuration plus the four stateful
sub-components (accumulator state `A`, the two filter states `I`, the
crossover-detector state `C`). -/
structure ChaikinOscillatorInstance (M A I C : Type) where
  cfg : ChaikinOscillator M
  adi : A
  ma1 : I
  ma2 : I
  cross_over : C
deriving DecidableEq, Repr

/-- `ChaikinOscillator::init`: validate, construct the accumulator from
the window and the seed candle, seed both filters from the accumulator's
peeked current value, and wire a default crossover detector. Collaborator
constructors (`adiNew`, `maInit`) may fail; their errors propagate via
the `?` operator, modelled by the match on `Except`. -/
def ChaikinOscillator.init {M V Bar A I C : Type}
    (ma_period : M → PeriodType) (is_similar_to : M → M → Bool)
    (adiNew : PeriodType → Bar → Except Error A)
    (adiPeek : A → V)
    (maInit : M → V → Except Error I)
    (crossDefault : C)
    (self : ChaikinOscillator M) (candle : Bar) :
    Except Error (ChaikinOscillatorInstance M A I C) :=
  if !(ChaikinOscillator.validate ma_period is_similar_to self) then
    Except.error Error.WrongConfig
  else
    match adiNew self.window candle with
    | Except.error e => Except.error e
    | Except.ok adi =>
      match maInit self.ma1 (adiPeek adi) with
      | Except.error e => Except.error e
      | Except.ok m1 =>
        match maInit self.ma2 (adiPeek adi) with
        | Except.error e => Except.error e
        | Except.ok m2 =>
          Except.ok ⟨self, adi, m1, m2, crossDefault⟩

/-- `ChaikinOscillator::set`: mutate `ma1` or `ma2` from a parsed raw
string; any other name, or a value that fails to parse, yields
`Error::ParameterParse(name, value)`. The Rust method mutates `&mut self`
and returns `Result<(), Error>`; here the post-state is returned together
with the optional error. The parser (`FromStr` for `M`) is passed
explicitly; the match on the name string is embedded as the equivalent
literal-equality conditional chain. -/
def ChaikinOscillator.set {M : Type} (parse : String → Option M)
    (self : ChaikinOscillator M) (name : String) (value : String) :
    ChaikinOscillator M × Option Error :=
  if name = "ma1" then
    match parse value with
    | none => (self, some (Error.ParameterParse name value))
    | some v => ({ self with ma1 := v }, none)
  else if name = "ma2" then
    match parse value with
    | none => (self, some (Error.ParameterParse name value))
    | some v => ({ self with ma2 := v }, none)
  else (self, some (Error.ParameterParse name value))

/-- `ChaikinOscillator::size`: one value, one signal. -/
def ChaikinOscillator.size {M : Type} (_self : ChaikinOscillator M) :
    Nat × Nat :=
  (1, 1)

/-- `Default for ChaikinOscillator<MA>`: `EMA(3)`, `EMA(10)`, windowless
accumulation. -/
def ChaikinOscillator.default : ChaikinOscillator MA :=
  { ma1 := MA.EMA 3, ma2 := MA.EMA 10, window := 0 }

/-- `ChaikinOscillatorInstance::config`: the stored configuration. -/
def ChaikinOscillatorInstance.config {M A I C : Type}
    (self : ChaikinOscillatorInstance M A I C) : ChaikinOscillator M :=
  self.cfg

/-- `ChaikinOscillatorInstance::next`: advance the accumulator on the
candle, feed the resulting accumulation value to both filters, subtract,
feed `(value, 0.0)` to the crossover detector, and return one value and
one signal. Collaborator step functions are passed explicitly; each maps
a state and an input to the updated state paired with the output,
mirroring `Method::next(&mut self, input)`. -/
def ChaikinOscillatorInstance.next {M V S Bar A I C : Type} [Sub V] [Zero V]
    (adiNext : A → Bar → A × V)
    (maNext : I → V → I × V)
    (crossNext : C → V × V → C × S)
    (self : ChaikinOscillatorInstance M A I C) (candle : Bar) :
    ChaikinOscillatorInstance M A I C × IndicatorResult V S :=
  let adiStep := adiNext self.adi candle
  let adi := adiStep.2
  let ma1Step := maNext self.ma1 adi
  let data1 := ma1Step.2
  let ma2Step := maNext self.ma2 adi
  let data2 := ma2Step.2
  let value := data1 - data2
  let crossStep := crossNext self.cross_over (value, 0)
  let signal := crossStep.2
  ({ self with
      adi := adiStep.1, ma1 := ma1Step.1, ma2 := ma2Step.1,
      cross_over := crossStep.1 },
   IndicatorResult.new [value] [signal])

/-! ### Example collaborator implementations, used by witnesses -/

/-- Example accumulator constructor: succeeds on small windows with
current value 5, fails on large ones with a collaborator error. -/
def exAdiNew (window : PeriodType) (_ : Unit) : Except Error Int :=
  if window < 10 then Except.ok 5 else Except.error Error.WrongMethodParameters

/-- Example non-mutating accumulator read. -/
def exAdiPeek (s : Int) : Int := s

/-- Example accumulator step. -/
def exAdiNext (s : Int) (_ : Unit) : Int × Int := (s + 2, s + 2)

/-- Example filter constructor: seeds the state from the descriptor's
period and the seed value; fails on a zero period. -/
def exMaInit (m : MA) (v : Int) : Except Error Int :=
  if m.ma_period = 0 then Except.error Error.WrongMethodParameters
  else Except.ok (Int.ofNat m.ma_period + v)

/-- Example filter step. -/
def exMaNext (s : Int) (v : Int) : Int × Int := (v, s + v)

/-- Example crossover-detector step. -/
def exCrossNext (s : Int) (p : Int × Int) : Int × Int :=
  (s + 1, if p.2 < p.1 then 1 else 0)

/-- Example descriptor parser: accepts exactly one spelling. -/
def exParse (s : String) : Option MA :=
  if s = "EMA(5)" then some (MA.EMA 5) else none

/-! ### Claims -/

/-- C1: for every configuration, `validate()` returns true iff the two
smoothing descriptors are similar, the period of `ma1` is strictly
positive, strictly below the period of `ma2`, which is strictly below the
maximum representable period value. -/
theorem chaikin_validate_iff {M : Type}
    (ma_period : M → PeriodType) (is_similar_to : M → M → Bool)
    (c : ChaikinOscillator M) :
    ChaikinOscillator.validate ma_period is_similar_to c = true ↔
      is_similar_to c.ma1 c.ma2 = true ∧
      0 < ma_period c.ma1 ∧
      ma_period c.ma1 < ma_period c.ma2 ∧
      ma_period c.ma2 < PeriodType.MAX := by
  simp [ChaikinOscillator.validate, Bool.and_eq_true, and_assoc]

/-- C7: the default configuration is `EMA(3)` for the short descriptor,
`EMA(10)` for the long descriptor — same (EMA) family, periods 3 and
10 — and window 0 (windowless accumulation). -/
theorem chaikin_default_config :
    ChaikinOscillator.default.ma1 = MA.EMA 3 ∧
    ChaikinOscillator.default.ma2 = MA.EMA 10 ∧
    MA.ma_period ChaikinOscillator.default.ma1 = 3 ∧
    MA.ma_period ChaikinOscillator.default.ma2 = 10 ∧
    MA.is_similar_to ChaikinOscillator.default.ma1 ChaikinOscillator.default.ma2 = true ∧
    ChaikinOscillator.default.window = 0 := by
  decide

/-- C2: one call to `next` feeds the candle to the accumulator to get the
accumulation value `a`, feeds the same `a` to both filters to get `s1` and
`s2`, computes `v = s1 - s2` with no clamping, feeds `(v, 0)` to the
crossover detector to get `g`, and returns the updated instance together
with values exactly `[v]` and signals exactly `[g]`. -/
theorem chaikin_next_dataflow {M V S Bar A I C : Type} [Sub V] [Zero V]
    (adiNext : A → Bar → A × V)
    (maNext : I → V → I × V)
    (crossNext : C → V × V → C × S)
    (inst : ChaikinOscillatorInstance M A I C) (candle : Bar)
    (a' : A) (a : V) (m1 : I) (s1 : V) (m2 : I) (s2 : V) (c' : C) (g : S)
    (h1 : adiNext inst.adi candle = (a', a))
    (h2 : maNext inst.ma1 a = (m1, s1))
    (h3 : maNext inst.ma2 a = (m2, s2))
    (h4 : crossNext inst.cross_over (s1 - s2, 0) = (c', g)) :
    ChaikinOscillatorInstance.next adiNext maNext crossNext inst candle =
      (⟨inst.cfg, a', m1, m2, c'⟩, IndicatorResult.new [s1 - s2] [g]) := by
  simp only [ChaikinOscillatorInstance.next, h1, h2, h3, h4]

/-- Witness for C2 at a concrete instance and concrete collaborators:
accumulation value 7, smoothed values 17 and 27, oscillator value −10,
signal 0. -/
theorem chaikin_next_dataflow_witness :
    ChaikinOscillatorInstance.next exAdiNext exMaNext exCrossNext
        (⟨ChaikinOscillator.default, 5, 10, 20, 0⟩ :
          ChaikinOscillatorInstance MA Int Int Int) () =
      (⟨ChaikinOscillator.default, 7, 7, 7, 1⟩,
        IndicatorResult.new [(17 : Int) - 27] [(0 : Int)]) :=
  chaikin_next_dataflow exAdiNext exMaNext exCrossNext
    ⟨ChaikinOscillator.default, 5, 10, 20, 0⟩ () 7 7 7 17 7 27 1 0
    (by decide) (by decide) (by decide) (by decide)

/-- C3: whenever `validate()` is false, `init` fails with
`Error::WrongConfig` and constructs no instance, whatever the seed candle
and the collaborator implementations. -/
theorem chaikin_init_invalid {M V Bar A I C : Type}
    (ma_period : M → PeriodType) (is_similar_to : M → M → Bool)
    (adiNew : PeriodType → Bar → Except Error A)
    (adiPeek : A → V)
    (maInit : M → V → Except Error I)
    (crossDefault : C)
    (cfg : ChaikinOscillator M) (candle : Bar)
    (h : ChaikinOscillator.validate ma_period is_similar_to cfg = false) :
    ChaikinOscillator.init ma_period is_similar_to adiNew adiPeek maInit
        crossDefault cfg candle = Except.error Error.WrongConfig := by
  simp [ChaikinOscillator.init, h]

/-- Witness for C3: the reversed-period configuration
`{ma1 := EMA(10), ma2 := EMA(3), window := 0}` fails validation and its
materialization yields `Error::WrongConfig`. -/
theorem chaikin_init_invalid_witness :
    ChaikinOscillator.validate MA.ma_period MA.is_similar_to
        ⟨MA.EMA 10, MA.EMA 3, 0⟩ = false ∧
    ChaikinOscillator.init MA.ma_period MA.is_similar_to exAdiNew exAdiPeek
        exMaInit (0 : Int) ⟨MA.EMA 10, MA.EMA 3, 0⟩ () =
      Except.error Error.WrongConfig :=
  ⟨by decide,
   chaikin_init_invalid MA.ma_period MA.is_similar_to exAdiNew exAdiPeek
     exMaInit 0 ⟨MA.EMA 10, MA.EMA 3, 0⟩ () (by decide)⟩

/-- C4: `set` succeeds exactly for the names "ma1" and "ma2" with a raw
value the parser accepts; on any failure the error is
`ParameterParse(name, value)` and the configuration is returned
unmodified. -/
theorem chaikin_set_spec {M : Type} (parse : String → Option M)
    (c : ChaikinOscillator M) (name value : String) :
    ((ChaikinOscillator.set parse c name value).2 = none ↔
      (name = "ma1" ∨ name = "ma2") ∧ (parse value).isSome = true) ∧
    (∀ e : Error, (ChaikinOscillator.set parse c name value).2 = some e →
      e = Error.ParameterParse name value ∧
      (ChaikinOscillator.set parse c name value).1 = c) := by
  by_cases h1 : name = "ma1"
  · subst h1
    cases hp : parse value <;>
      simp [ChaikinOscillator.set, hp]
  · by_cases h2 : name = "ma2"
    · subst h2
      cases hp : parse value <;>
        simp [ChaikinOscillator.set, hp]
    · simp [ChaikinOscillator.set, h1, h2]

/-- Witness for C4: setting an unrecognized name fails with the
parameter-parse error carrying that name and value, and the default
configuration is returned unchanged. -/
theorem chaikin_set_spec_witness :
    (ChaikinOscillator.set exParse ChaikinOscillator.default "unknown" "x").1 =
      ChaikinOscillator.default ∧
    (ChaikinOscillator.set exParse ChaikinOscillator.default "unknown" "x").2 =
      some (Error.ParameterParse "unknown" "x") :=
  ⟨((chaikin_set_spec exParse ChaikinOscillator.default "unknown" "x").2
      (Error.ParameterParse "unknown" "x") (by decide)).2,
   by decide⟩

/-- C5: on a valid configuration, `init` seeds both smoothing filters
from the accumulator's peeked current value — the identical seed value
for both — and stores the accumulator exactly as constructed, not
advanced. -/
theorem chaikin_init_peek_seeds {M V Bar A I C : Type}
    (ma_period : M → PeriodType) (is_similar_to : M → M → Bool)
    (adiNew : PeriodType → Bar → Except Error A)
    (adiPeek : A → V)
    (maInit : M → V → Except Error I)
    (crossDefault : C)
    (cfg : ChaikinOscillator M) (candle : Bar)
    (a0 : A) (i1 i2 : I)
    (hv : ChaikinOscillator.validate ma_period is_similar_to cfg = true)
    (ha : adiNew cfg.window candle = Except.ok a0)
    (h1 : maInit cfg.ma1 (adiPeek a0) = Except.ok i1)
    (h2 : maInit cfg.ma2 (adiPeek a0) = Except.ok i2) :
    ChaikinOscillator.init ma_period is_similar_to adiNew adiPeek maInit
        crossDefault cfg candle =
      Except.ok ⟨cfg, a0, i1, i2, crossDefault⟩ := by
  simp [ChaikinOscillator.init, hv, ha, h1, h2]

/-- Witness for C5: on the default configuration the example accumulator
is constructed with current value 5, both filters are seeded from that
same peeked value, and the stored accumulator state is still 5. -/
theorem chaikin_init_peek_seeds_witness :
    ChaikinOscillator.init MA.ma_period MA.is_similar_to exAdiNew exAdiPeek
        exMaInit (0 : Int) ChaikinOscillator.default () =
      Except.ok ⟨ChaikinOscillator.default, 5, 8, 15, 0⟩ :=
  chaikin_init_peek_seeds MA.ma_period MA.is_similar_to exAdiNew exAdiPeek
    exMaInit 0 ChaikinOscillator.default () 5 8 15
    (by decide) (by rfl) (by rfl) (by rfl)

/-- C6: `size` returns exactly `(1, 1)` for every configuration, and
every result of `next` holds exactly one value and exactly one signal. -/
theorem chaikin_output_shape {M V S Bar A I C : Type} [Sub V] [Zero V]
    (c : ChaikinOscillator M)
    (adiNext : A → Bar → A × V)
    (maNext : I → V → I × V)
    (crossNext : C → V × V → C × S)
    (inst : ChaikinOscillatorInstance M A I C) (candle : Bar) :
    ChaikinOscillator.size c = (1, 1) ∧
    (ChaikinOscillatorInstance.next adiNext maNext crossNext inst candle).2.values.length = 1 ∧
    (ChaikinOscillatorInstance.next adiNext maNext crossNext inst candle).2.signals.length = 1 := by
  exact ⟨rfl, rfl, rfl⟩

/-- C8: on a valid configuration, any error produced by a collaborator
constructor during `init` — the accumulator constructor, or either
filter constructor — is returned unchanged, not wrapped. -/
theorem chaikin_init_error_propagation {M V Bar A I C : Type}
    (ma_period : M → PeriodType) (is_similar_to : M → M → Bool)
    (adiNew : PeriodType → Bar → Except Error A)
    (adiPeek : A → V)
    (maInit : M → V → Except Error I)
    (crossDefault : C)
    (cfg : ChaikinOscillator M) (candle : Bar)
    (hv : ChaikinOscillator.validate ma_period is_similar_to cfg = true) :
    (∀ e : Error, adiNew cfg.window candle = Except.error e →
      ChaikinOscillator.init ma_period is_similar_to adiNew adiPeek maInit
        crossDefault cfg candle = Except.error e) ∧
    (∀ (a0 : A) (e : Error), adiNew cfg.window candle = Except.ok a0 →
      maInit cfg.ma1 (adiPeek a0) = Except.error e →
      ChaikinOscillator.init ma_period is_similar_to adiNew adiPeek maInit
        crossDefault cfg candle = Except.error e) ∧
    (∀ (a0 : A) (i1 : I) (e : Error), adiNew cfg.window candle = Except.ok a0 →
      maInit cfg.ma1 (adiPeek a0) = Except.ok i1 →
      maInit cfg.ma2 (adiPeek a0) = Except.error e →
      ChaikinOscillator.init ma_period is_similar_to adiNew adiPeek maInit
        crossDefault cfg candle = Except.error e) := by
  refine ⟨?_, ?_, ?_⟩
  · intro e he
    simp [ChaikinOscillator.init, hv, he]
  · intro a0 e ha he
    simp [ChaikinOscillator.init, hv, ha, he]
  · intro a0 i1 e ha h1 he
    simp [ChaikinOscillator.init, hv, ha, h1, he]

/-- Witness for C8: a valid configuration whose window (20) makes the
example accumulator constructor fail; `init` returns that collaborator's
error (`WrongMethodParameters`) unchanged. -/
theorem chaikin_init_error_propagation_witness :
    ChaikinOscillator.init MA.ma_period MA.is_similar_to exAdiNew exAdiPeek
        exMaInit (0 : Int) ⟨MA.EMA 3, MA.EMA 10, 20⟩ () =
      Except.error Error.WrongMethodParameters :=
  (chaikin_init_error_propagation MA.ma_period MA.is_similar_to exAdiNew
      exAdiPeek exMaInit 0 ⟨MA.EMA 3, MA.EMA 10, 20⟩ () (by decide)).1
    Error.WrongMethodParameters (by rfl)

/-- C9: `next` leaves the stored configuration — `ma1`, `ma2` and
`window` — untouched: only the accumulator, the two filters and the
crossover detector change. -/
theorem chaikin_next_preserves_cfg {M V S Bar A I C : Type} [Sub V] [Zero V]
    (adiNext : A → Bar → A × V)
    (maNext : I → V → I × V)
    (crossNext : C → V × V → C × S)
    (inst : ChaikinOscillatorInstance M A I C) (candle : Bar) :
    (ChaikinOscillatorInstance.next adiNext maNext crossNext inst candle).1.cfg =
      inst.cfg := by
  rfl

/-- C10: a successful `set` of "ma1" replaces exactly the `ma1` field,
and a successful `set` of "ma2" replaces exactly the `ma2` field; the
other two fields are unchanged, and no error is reported. -/
theorem chaikin_set_success_frame {M : Type} (parse : String → Option M)
    (c : ChaikinOscillator M) (value : String) (m : M)
    (hp : parse value = some m) :
    ChaikinOscillator.set parse c "ma1" value = ({ c with ma1 := m }, none) ∧
    ChaikinOscillator.set parse c "ma2" value = ({ c with ma2 := m }, none) := by
  constructor <;> simp [ChaikinOscillator.set, hp]

/-- Witness for C10: setting "ma1" (resp. "ma2") to the parseable value
"EMA(5)" on the default configuration replaces exactly that field with
`EMA(5)`. -/
theorem chaikin_set_success_frame_witness :
    ChaikinOscillator.set exParse ChaikinOscillator.default "ma1" "EMA(5)" =
      ({ ChaikinOscillator.default with ma1 := MA.EMA 5 }, none) ∧
    ChaikinOscillator.set exParse ChaikinOscillator.default "ma2" "EMA(5)" =
      ({ ChaikinOscillator.default with ma2 := MA.EMA 5 }, none) :=
  chaikin_set_success_frame exParse ChaikinOscillator.default "EMA(5)"
    (MA.EMA 5) (by decide)
